import Mathlib

/-!
Verification development for the DSME daemon core (spiiroin/dsme).

Shallow embedding of the parts of the C sources relevant to the checked
properties:

* `src/dsme/mainloop.c`    — run/quit lifecycle and exit code
* `src/modules/heartbeat.c`— heartbeat watch dispatch
* `src/dsme/dsme-server.c` — startup sequence, socket message intake
* `src/dsme/logging.c`     — log ring buffer, worker notification, filter rules
* `src/dsme/dsmesock.c`    — client accept path and credential capture

C integers are modelled as `Int`/`Nat`; the 32-bit unsigned ring-buffer
counters are modelled as unbounded tallies whose C values are the tallies
modulo 2^32, with the modular subtraction made explicit where the C code
performs it.  Fallible external calls (read/write/accept/...) are modelled
as explicit result inputs so that each C function becomes a total Lean
function of its inputs.
-/

/- ================================================================== -/
/- Constants from <syslog.h>, <stdlib.h>, <errno.h>                    -/
/- ================================================================== -/

def LOG_EMERG   : Int := 0
def LOG_ALERT   : Int := 1
def LOG_CRIT    : Int := 2
def LOG_ERR     : Int := 3
def LOG_WARNING : Int := 4
def LOG_NOTICE  : Int := 5
def LOG_INFO    : Int := 6
def LOG_DEBUG   : Int := 7

def EXIT_SUCCESS : Int := 0
def EXIT_FAILURE : Int := 1

def EINTR  : Nat := 4
def EAGAIN : Nat := 11
def EPIPE  : Nat := 32

/- ================================================================== -/
/- src/dsme/mainloop.c                                                 -/
/- ================================================================== -/

/-- `main_loop_state_t` from src/dsme/mainloop.c:38. -/
inductive MainLoopState
  | not_started
  | running
  | stopped
  deriving DecidableEq

/-- The mainloop globals touched by quit/exit_code:
`state` (mainloop.c:40) and `mainloop_exit_code` (mainloop.c:45,
initialised to `EXIT_SUCCESS`). -/
structure Mainloop where
  state     : MainLoopState
  exit_code : Int
  deriving DecidableEq

/-- Mainloop globals as they stand when `dsme_main_loop_run` has set
`state = RUNNING` (mainloop.c:122) and nobody has called quit yet. -/
def mainloopRunning : Mainloop :=
  { state := MainLoopState.running, exit_code := EXIT_SUCCESS }

/-- `dsme_main_loop_quit` (mainloop.c:148-167).  The body runs only when
`state == RUNNING`; it sets `state = STOPPED`, raises the exit code if the
argument is larger, and pokes the wakeup pipe (the pipe write has no effect
on the modelled state). -/
def dsme_main_loop_quit (s : Mainloop) (exit_code : Int) : Mainloop :=
  if s.state = MainLoopState.running then
    { state     := MainLoopState.stopped
      exit_code := if s.exit_code < exit_code then exit_code else s.exit_code }
  else
    s

/-- `dsme_main_loop_exit_code` (mainloop.c:169-173). -/
def dsme_main_loop_exit_code (s : Mainloop) : Int :=
  s.exit_code

/-- C1 counterexample: starting from the running mainloop, `quit(0)` then
`quit(1)` leaves the exit code at `0`, not at `max 0 1 = 1`: the first quit
moves `state` to STOPPED, so the second quit call is a no-op. -/
theorem mainloop_exit_code_not_max_of_two_quits :
    dsme_main_loop_exit_code
      (dsme_main_loop_quit (dsme_main_loop_quit mainloopRunning 0) 1)
      ≠ max 0 1 := by
  decide

/-- C1 (amended): only the first `dsme_main_loop_quit` call issued while the
loop is RUNNING takes effect; it raises the exit code to the maximum of the
previous exit code and its argument and moves the state to STOPPED, after
which every further quit call is a no-op.  Hence after `quit(c1)` followed
by `quit(c2)` the exit code is `max previous c1`, independent of `c2`. -/
theorem mainloop_exit_code_first_quit_wins (s : Mainloop) (c1 c2 : Int)
    (h : s.state = MainLoopState.running) :
    dsme_main_loop_exit_code
      (dsme_main_loop_quit (dsme_main_loop_quit s c1) c2)
      = max s.exit_code c1 := by
  simp [dsme_main_loop_quit, dsme_main_loop_exit_code, h]
  split <;> rename_i hlt
  · simp [max_eq_right (le_of_lt hlt)]
  · simp [max_eq_left (le_of_not_lt hlt)]

/-- C1 witness: concrete application of the amended theorem. -/
theorem mainloop_exit_code_first_quit_wins_witness :
    dsme_main_loop_exit_code
      (dsme_main_loop_quit (dsme_main_loop_quit mainloopRunning 5) 2)
      = max EXIT_SUCCESS 5 :=
  mainloop_exit_code_first_quit_wins mainloopRunning 5 2 rfl

/- ================================================================== -/
/- src/modules/heartbeat.c                                             -/
/- ================================================================== -/

/-- The GIOCondition bits tested by the heartbeat watch
(`G_IO_ERR | G_IO_HUP | G_IO_NVAL`; `G_IO_IN` is never tested,
heartbeat.c:55). -/
structure IoCondition where
  io_in   : Bool
  io_err  : Bool
  io_hup  : Bool
  io_nval : Bool
  deriving DecidableEq

/-- Outcome of the one-byte `read(STDIN_FILENO, &c, 1)` call
(heartbeat.c:62): one byte read, end of file (`n == 0`), or
`n == -1` with an errno value. -/
inductive ReadOutcome
  | gotByte
  | eof
  | error (errno : Nat)
  deriving DecidableEq

/-- Outcome of one `write(STDOUT_FILENO, "*", 1)` call. -/
inductive WriteOutcome
  | ok
  | error (errno : Nat)
  deriving DecidableEq

/-- The `do { n = write(...); } while( n == -1 && errno == EINTR )` retry
loop (heartbeat.c:78-80), driven by the successive outcomes of the write
calls; the loop ends at the first outcome that is not an EINTR failure and
`n`/`errno` then hold that outcome.  An exhausted list stands for a call
sequence that never got past EINTR (the value returned then is immaterial
to the claims). -/
def pong_write_loop : List WriteOutcome → WriteOutcome
  | [] => WriteOutcome.ok
  | w :: rest =>
    match w with
    | WriteOutcome.error e =>
      if e = EINTR then pong_write_loop rest else WriteOutcome.error e
    | WriteOutcome.ok => WriteOutcome.ok

/-- Observable effects of one `emit_heartbeat_message` dispatch. -/
structure HeartbeatResult where
  keep_going          : Bool
  quit_called         : Bool
  quit_code           : Int
  broadcast_heartbeat : Bool
  deriving DecidableEq

/-- `emit_heartbeat_message` (heartbeat.c:47-97) as a function of the watch
condition, the stdin read outcome and the stdout write outcomes.
Error/HUP conditions, EOF and non-EINTR/EAGAIN read errors leave
`keep_going` false, which triggers `dsme_main_loop_quit(EXIT_FAILURE)` in
the cleanup block; EINTR/EAGAIN read errors keep the watch without
broadcasting.  After a successful read the pong write-retry loop runs but
its final outcome is never tested: the code proceeds to broadcast the
heartbeat message and keeps going regardless. -/
def emit_heartbeat_message (cond : IoCondition) (rd : ReadOutcome)
    (writes : List WriteOutcome) : HeartbeatResult :=
  if cond.io_err || cond.io_hup || cond.io_nval then
    { keep_going := false, quit_called := true, quit_code := EXIT_FAILURE
      broadcast_heartbeat := false }
  else
    match rd with
    | ReadOutcome.eof =>
      { keep_going := false, quit_called := true, quit_code := EXIT_FAILURE
        broadcast_heartbeat := false }
    | ReadOutcome.error e =>
      if e = EINTR || e = EAGAIN then
        { keep_going := true, quit_called := false, quit_code := 0
          broadcast_heartbeat := false }
      else
        { keep_going := false, quit_called := true, quit_code := EXIT_FAILURE
          broadcast_heartbeat := false }
    | ReadOutcome.gotByte =>
      match pong_write_loop writes with
      | _ =>
        { keep_going := true, quit_called := false, quit_code := 0
          broadcast_heartbeat := true }

/-- A readiness-only watch condition (plain `G_IO_IN`). -/
def condIn : IoCondition :=
  { io_in := true, io_err := false, io_hup := false, io_nval := false }

/-- C2 counterexample: a heartbeat dispatch that reads its ping byte but
fails to write the pong (a single EPIPE failure, which the retry loop does
not retry) does not call quit at all — the write outcome is never checked
after the retry loop. -/
theorem heartbeat_pong_write_failure_no_quit :
    pong_write_loop [WriteOutcome.error EPIPE] = WriteOutcome.error EPIPE
    ∧ (emit_heartbeat_message condIn ReadOutcome.gotByte
        [WriteOutcome.error EPIPE]).quit_called = false := by
  decide

/-- C2 (amended): on EOF from stdin or a read error other than
EINTR/EAGAIN the dispatch calls `quit(EXIT_FAILURE)` and drops the watch;
after a successful one-byte read, however, the dispatch never quits —
a failed pong write is ignored (only EINTR write failures are retried) and
the heartbeat message is broadcast regardless. -/
theorem heartbeat_quit_on_eof_or_read_error (cond : IoCondition)
    (rd : ReadOutcome) (writes : List WriteOutcome)
    (hc : cond.io_err = false ∧ cond.io_hup = false ∧ cond.io_nval = false) :
    ((rd = ReadOutcome.eof
        ∨ ∃ e, rd = ReadOutcome.error e ∧ e ≠ EINTR ∧ e ≠ EAGAIN) →
      (emit_heartbeat_message cond rd writes).quit_called = true
      ∧ (emit_heartbeat_message cond rd writes).quit_code = EXIT_FAILURE
      ∧ (emit_heartbeat_message cond rd writes).keep_going = false)
    ∧ (rd = ReadOutcome.gotByte →
      (emit_heartbeat_message cond rd writes).quit_called = false
      ∧ (emit_heartbeat_message cond rd writes).broadcast_heartbeat = true) := by
  obtain ⟨h1, h2, h3⟩ := hc
  constructor
  · rintro (hrd | ⟨e, hrd, he1, he2⟩)
    · simp [emit_heartbeat_message, hrd, h1, h2, h3]
    · simp [emit_heartbeat_message, hrd, h1, h2, h3, he1, he2]
  · intro hrd
    simp [emit_heartbeat_message, hrd, h1, h2, h3]

/-- C2 witness: concrete application of the amended theorem at an EOF
dispatch. -/
theorem heartbeat_quit_on_eof_or_read_error_witness :
    (emit_heartbeat_message condIn ReadOutcome.eof []).quit_called = true
    ∧ (emit_heartbeat_message condIn ReadOutcome.eof []).quit_code
        = EXIT_FAILURE
    ∧ (emit_heartbeat_message condIn ReadOutcome.eof []).keep_going = false :=
  (heartbeat_quit_on_eof_or_read_error condIn ReadOutcome.eof []
    ⟨rfl, rfl, rfl⟩).1 (Or.inl rfl)

/- ================================================================== -/
/- src/dsme/logging.c — priorities, sink selection, dsme_log_open      -/
/- ================================================================== -/

/-- `log_prio_cap` (logging.c:267-276): clamp a priority into
`LOG_EMERG ... LOG_DEBUG`. -/
def log_prio_cap (prio : Int) : Int :=
  if prio < LOG_EMERG then LOG_EMERG
  else if prio > LOG_DEBUG then LOG_DEBUG
  else prio

/-- `log_method` (logging.h:41-46). -/
inductive LogMethod
  | NONE
  | STDERR
  | SYSLOG
  | FILE
  deriving DecidableEq

/-- Which of the four sink routines `dsme_log_routine` (logging.c:376)
currently points at. -/
inductive LogRoutine
  | to_null
  | to_stderr
  | to_syslog
  | to_file
  deriving DecidableEq

/-- The `logopt` configuration fields relevant here plus the routine
pointer; `logopt` defaults are method STDERR / verbosity LOG_NOTICE
(logging.c:181-188) and `dsme_log_routine` starts as `log_to_stderr`
(logging.c:376). -/
structure LogOpt where
  method    : LogMethod
  verbosity : Int
  routine   : LogRoutine
  deriving DecidableEq

def logoptDefaults : LogOpt :=
  { method := LogMethod.STDERR, verbosity := LOG_NOTICE
    routine := LogRoutine.to_stderr }

/-- Outcomes of the fallible external calls made by `dsme_log_open`:
`fopen` of the log file, `pthread_attr_init`, `pthread_attr_getschedparam`
and `pthread_create`. -/
structure LogOpenEnv where
  fopen_ok     : Bool
  attr_init_ok : Bool
  getparam_ok  : Bool
  create_ok    : Bool
  deriving DecidableEq

/-- The worker-thread creation tail of `dsme_log_open`
(logging.c:934-963): `pthread_attr_init`, `pthread_attr_getschedparam`
and `pthread_create` each return false for the whole open on failure. -/
def dsme_log_open_thread (opt : LogOpt) (env : LogOpenEnv) : Bool × LogOpt :=
  if ¬env.attr_init_ok then (false, opt)
  else if ¬env.getparam_ok then (false, opt)
  else if ¬env.create_ok then (false, opt)
  else (true, opt)

/-- `dsme_log_open` (logging.c:891-964).  Stores method and clamped
verbosity into `logopt`, selects the sink routine (for LOG_METHOD_FILE
only if the file could be opened — otherwise it returns false with the
routine unchanged), then starts the worker thread, returning false if any
pthread step fails. -/
def dsme_log_open (opt : LogOpt) (method : LogMethod) (verbosity : Int)
    (env : LogOpenEnv) : Bool × LogOpt :=
  let opt := { opt with method := method, verbosity := log_prio_cap verbosity }
  match method with
  | LogMethod.NONE   => dsme_log_open_thread { opt with routine := LogRoutine.to_null } env
  | LogMethod.STDERR => dsme_log_open_thread { opt with routine := LogRoutine.to_stderr } env
  | LogMethod.SYSLOG => dsme_log_open_thread { opt with routine := LogRoutine.to_syslog } env
  | LogMethod.FILE   =>
    if ¬env.fopen_ok then (false, opt)
    else dsme_log_open_thread { opt with routine := LogRoutine.to_file } env

/- ================================================================== -/
/- src/dsme/dsme-server.c — main() startup sequence                    -/
/- ================================================================== -/

/-- Outcomes of the fallible startup steps of `main`
(dsme-server.c:264-359): `dsme_log_init`, option parsing (at least one
`-p` module given), the `dsme_log_open` call inputs, `modulebase_init`,
`dsmesock_listen` and `chdir`; plus the exit code the mainloop reports
after `dsme_main_loop_run` returns. -/
structure ServerEnv where
  log_init_ok           : Bool
  module_names_nonempty : Bool
  log_method            : LogMethod
  log_verbosity         : Int
  log_open_env          : LogOpenEnv
  modulebase_ok         : Bool
  listen_ok             : Bool
  chdir_ok              : Bool
  loop_exit_code        : Int
  deriving DecidableEq

/-- What `main` is observed to do. -/
structure ServerResult where
  exit_code         : Int
  entered_main_loop : Bool
  log_open_result   : Bool
  deriving DecidableEq

/-- `main` (dsme-server.c:264-359).  `exit_code` starts as EXIT_FAILURE
and each failing startup step jumps to EXIT keeping it; but the value
returned by `dsme_log_open` at dsme-server.c:310 is discarded — no code
path inspects it — so startup proceeds identically whether the log sink
was opened or not.  When all checked steps succeed, `main` runs the
mainloop and returns `dsme_main_loop_exit_code()`. -/
def dsme_server_main (env : ServerEnv) : ServerResult :=
  if ¬env.log_init_ok then
    { exit_code := EXIT_FAILURE, entered_main_loop := false
      log_open_result := false }
  else if ¬env.module_names_nonempty then
    { exit_code := EXIT_FAILURE, entered_main_loop := false
      log_open_result := false }
  else
    let opened := (dsme_log_open logoptDefaults env.log_method
                    env.log_verbosity env.log_open_env).1
    if ¬env.modulebase_ok then
      { exit_code := EXIT_FAILURE, entered_main_loop := false
        log_open_result := opened }
    else if ¬env.listen_ok then
      { exit_code := EXIT_FAILURE, entered_main_loop := false
        log_open_result := opened }
    else if ¬env.chdir_ok then
      { exit_code := EXIT_FAILURE, entered_main_loop := false
        log_open_result := opened }
    else
      { exit_code := env.loop_exit_code, entered_main_loop := true
        log_open_result := opened }

/-- A startup environment in which the log file cannot be created (the
`fopen` inside `dsme_log_open` fails, so `dsme_log_open` returns false)
while every other startup step succeeds and the mainloop later exits
gracefully with code 0. -/
def serverEnvLogOpenFails : ServerEnv :=
  { log_init_ok           := true
    module_names_nonempty := true
    log_method            := LogMethod.FILE
    log_verbosity         := LOG_NOTICE
    log_open_env          := { fopen_ok := false, attr_init_ok := true
                               getparam_ok := true, create_ok := true }
    modulebase_ok         := true
    listen_ok             := true
    chdir_ok              := true
    loop_exit_code        := EXIT_SUCCESS }

/-- C3 counterexample: with the log file uncreatable, `dsme_log_open`
does return false, yet the daemon still enters the mainloop and exits
with code 0 — not with a non-zero code as the claim requires. -/
theorem log_open_failure_not_fatal :
    (dsme_server_main serverEnvLogOpenFails).log_open_result = false
    ∧ (dsme_server_main serverEnvLogOpenFails).entered_main_loop = true
    ∧ (dsme_server_main serverEnvLogOpenFails).exit_code = 0 := by
  decide

/-- C3 (amended): `main` ignores the value returned by `dsme_log_open`;
failure to open the log sink is not treated as a startup error.  Whenever
the checked startup steps (`dsme_log_init`, module list, `modulebase_init`,
`dsmesock_listen`, `chdir`) succeed, the daemon enters the mainloop and
its process exit code is the mainloop exit code, whatever `dsme_log_open`
returned. -/
theorem main_ignores_log_open_result (env : ServerEnv)
    (h1 : env.log_init_ok = true) (h2 : env.module_names_nonempty = true)
    (h3 : env.modulebase_ok = true) (h4 : env.listen_ok = true)
    (h5 : env.chdir_ok = true) :
    (dsme_server_main env).entered_main_loop = true
    ∧ (dsme_server_main env).exit_code = env.loop_exit_code := by
  simp [dsme_server_main, h1, h2, h3, h4, h5]

/-- C3 witness: the amended theorem applied at the log-open-failure
environment. -/
theorem main_ignores_log_open_result_witness :
    (dsme_server_main serverEnvLogOpenFails).entered_main_loop = true
    ∧ (dsme_server_main serverEnvLogOpenFails).exit_code
        = serverEnvLogOpenFails.loop_exit_code :=
  main_ignores_log_open_result serverEnvLogOpenFails rfl rfl rfl rfl rfl

/- ================================================================== -/
/- src/dsme/logging.c — ring buffer, dsme_log_queue, dsme_log_thread   -/
/- ================================================================== -/

/-- `DSME_LOG_ENTRY_COUNT` (logging.c:61). -/
def DSME_LOG_ENTRY_COUNT : Nat := 128

/-- Modulus of the C `guint` counters. -/
def GUINT_MOD : Nat := 2 ^ 32

/-- One formatted entry of the logging ring buffer: syslog priority
(clamped by `log_entry_vformat`, logging.c:209) and the formatted message
text (`log_entry_t`, logging.c:67-77; the trailing file/func copies and the
128-byte truncation are not needed by any claim and are elided). -/
structure LogEntry where
  prio : Int
  text : String
  deriving DecidableEq

/-- `log_entry_vformat` as far as the modelled fields go
(logging.c:194-229). -/
def log_entry_make (prio : Int) (text : String) : LogEntry :=
  { prio := log_prio_cap prio, text := text }

/-- The synthetic entry built by `dsme_log_queue` after an overflow
(logging.c:591-592). -/
def overflow_entry (skipped : Nat) : LogEntry :=
  log_entry_make LOG_ERR
    ("logging ringbuffer overflow; " ++ toString skipped ++ " messages lost")

/-- The mutable logger state shared by `dsme_log_queue` and
`dsme_log_thread`: `write_count_pvt` / `read_count_pvt`
(logging.c:393,401) are modelled as unbounded tallies (the C `guint`
values are these modulo 2^32, and every use in the code is via the modular
difference `buffered_count` or the index `count % 128`, both of which
factor through the modulus); `overflow` / `skipped` are the static locals
of `dsme_log_queue` (logging.c:568-569); `thread_enabled`
(logging.c:409, initially 1) and whether `ring_buffer_event_fd`
(logging.c:382) holds an open eventfd. -/
structure RingState where
  write          : Nat
  read           : Nat
  overflow       : Bool
  skipped        : Nat
  thread_enabled : Bool
  event_fd_open  : Bool
  deriving DecidableEq

/-- Logger state right after `dsme_log_init` (logging.c:859-878) has
created the eventfd: empty buffer, no overflow, worker enabled. -/
def ringInit : RingState :=
  { write := 0, read := 0, overflow := false, skipped := 0
    thread_enabled := true, event_fd_open := true }

/-- `buffered_count` (logging.c:483-486): the `guint` difference
`write_count_get() - read_count_get()`, i.e. the difference of the two
tallies modulo 2^32. -/
def buffered_count (s : RingState) : Nat :=
  (GUINT_MOD + s.write - s.read) % GUINT_MOD

/-- Externally visible effects of the logger functions. -/
inductive LogEvent
  | stored (slot : Nat) (e : LogEntry)
  | consumed (slot : Nat)
  | syncWrite (e : LogEntry)
  | notified
  deriving DecidableEq

/-- `dsme_log_notify_worker` (logging.c:506-548), parametrised by whether
the eventfd write would fail (`efd_write_fails`).  With the worker enabled
and the eventfd open and writable it just posts the event; an eventfd
write failure clears `thread_enabled` for good; whenever the worker could
not be notified (`ack == false`) the entry is instead handed to
`dsme_log_routine` synchronously on the calling thread. -/
def dsme_log_notify_worker (s : RingState) (efd_write_fails : Bool)
    (entry : LogEntry) : RingState × List LogEvent :=
  if s.thread_enabled then
    if ¬s.event_fd_open then
      (s, [LogEvent.syncWrite entry])
    else if efd_write_fails then
      ({ s with thread_enabled := false }, [LogEvent.syncWrite entry])
    else
      (s, [LogEvent.notified])
  else
    (s, [LogEvent.syncWrite entry])

/-- `dsme_log_queue` (logging.c:565-613), parametrised by the entry being
logged and by the outcomes of the up-to-two eventfd writes the call can
make.  At occupancy >= 128 it only sets `overflow` and counts the drop;
while `overflow` is set and occupancy is still >= 128*7/8 = 112 it also
only counts the drop; otherwise, if recovering from overflow, it first
stores and signals the synthetic overflow entry (resetting the overflow
bookkeeping), and finally stores and signals the actual entry at slot
`write_count % 128`. -/
def dsme_log_queue (s : RingState) (prio : Int) (text : String)
    (efd_fail1 efd_fail2 : Bool) : RingState × List LogEvent :=
  if buffered_count s ≥ DSME_LOG_ENTRY_COUNT then
    ({ s with overflow := true, skipped := s.skipped + 1 }, [])
  else if s.overflow ∧ buffered_count s ≥ DSME_LOG_ENTRY_COUNT * 7 / 8 then
    ({ s with skipped := s.skipped + 1 }, [])
  else
    let step1 : RingState × List LogEvent :=
      if s.overflow then
        let oe := overflow_entry s.skipped
        let slot := s.write % DSME_LOG_ENTRY_COUNT
        let s1 := { s with write := s.write + 1, overflow := false
                           skipped := 0 }
        let n1 := dsme_log_notify_worker s1 efd_fail1 oe
        (n1.1, LogEvent.stored slot oe :: n1.2)
      else
        (s, [])
    let s2 := step1.1
    let entry := log_entry_make prio text
    let slot := s2.write % DSME_LOG_ENTRY_COUNT
    let s3 := { s2 with write := s2.write + 1 }
    let n2 := dsme_log_notify_worker s3 efd_fail2 entry
    (n2.1, step1.2 ++ (LogEvent.stored slot entry :: n2.2))

/-- One iteration of the drain loop inside `dsme_log_thread`
(logging.c:652-673): if the bookkeeping says the buffer is empty the
thread exits (reaching the EXIT label, which clears `thread_enabled`,
logging.c:680); otherwise it delivers the entry at `read_count % 128` to
the sink and advances `read_count`. -/
def dsme_log_thread_step (s : RingState) : RingState × List LogEvent :=
  if buffered_count s = 0 then
    ({ s with thread_enabled := false }, [])
  else
    let slot := s.read % DSME_LOG_ENTRY_COUNT
    ({ s with read := s.read + 1 }, [LogEvent.consumed slot])

/-- The logger-thread paths that exit the thread without touching the
counters: an eventfd read error, or noticing `thread_enabled == 0`
(logging.c:639-650); both end at the EXIT label which clears
`thread_enabled`. -/
def dsme_log_thread_exit (s : RingState) : RingState :=
  { s with thread_enabled := false }

/-- The producer/consumer operations whose interleavings generate the
reachable logger states. -/
inductive RingOp
  | queue (prio : Int) (text : String) (efd_fail1 efd_fail2 : Bool)
  | pop
  | threadExit
  deriving DecidableEq

/-- Apply one operation to the logger state. -/
def ringApply (s : RingState) : RingOp → RingState
  | RingOp.queue prio text f1 f2 => (dsme_log_queue s prio text f1 f2).1
  | RingOp.pop => (dsme_log_thread_step s).1
  | RingOp.threadExit => dsme_log_thread_exit s

/-- Run a list of operations from the post-`dsme_log_init` state. -/
def ringRun (ops : List RingOp) : RingState :=
  ops.foldl ringApply ringInit

/-- Logger states reachable by interleaving `dsme_log_queue` calls with
logger-thread steps. -/
inductive RingReachable : RingState → Prop
  | init : RingReachable ringInit
  | step (s : RingState) (op : RingOp) :
      RingReachable s → RingReachable (ringApply s op)

/-- Every state produced by running a list of operations is reachable. -/
theorem ringRun_reachable (ops : List RingOp) : RingReachable (ringRun ops) := by
  suffices h : ∀ s, RingReachable s → RingReachable (ops.foldl ringApply s) from
    h ringInit RingReachable.init
  induction ops with
  | nil => intro s hs; exact hs
  | cons op rest ih =>
    intro s hs
    exact ih (ringApply s op) (RingReachable.step s op hs)

/-- Under the counter invariant the modular `buffered_count` is the plain
difference of the tallies. -/
theorem buffered_count_eq (s : RingState) (h1 : s.read ≤ s.write)
    (h2 : s.write - s.read < GUINT_MOD) :
    buffered_count s = s.write - s.read := by
  have hmod : GUINT_MOD = 4294967296 := by norm_num [GUINT_MOD]
  unfold buffered_count
  rw [hmod] at h2 ⊢
  omega

/-- `dsme_log_notify_worker` never touches `write_count`. -/
@[simp] theorem notify_worker_write (s : RingState) (f : Bool) (e : LogEntry) :
    (dsme_log_notify_worker s f e).1.write = s.write := by
  unfold dsme_log_notify_worker
  split
  · split
    · rfl
    · split <;> rfl
  · rfl

/-- `dsme_log_notify_worker` never touches `read_count`. -/
@[simp] theorem notify_worker_read (s : RingState) (f : Bool) (e : LogEntry) :
    (dsme_log_notify_worker s f e).1.read = s.read := by
  unfold dsme_log_notify_worker
  split
  · split
    · rfl
    · split <;> rfl
  · rfl

/-- `dsme_log_notify_worker` never touches the overflow flag. -/
@[simp] theorem notify_worker_overflow (s : RingState) (f : Bool) (e : LogEntry) :
    (dsme_log_notify_worker s f e).1.overflow = s.overflow := by
  unfold dsme_log_notify_worker
  split
  · split
    · rfl
    · split <;> rfl
  · rfl

/-- `dsme_log_notify_worker` never touches the skip counter. -/
@[simp] theorem notify_worker_skipped (s : RingState) (f : Bool) (e : LogEntry) :
    (dsme_log_notify_worker s f e).1.skipped = s.skipped := by
  unfold dsme_log_notify_worker
  split
  · split
    · rfl
    · split <;> rfl
  · rfl

/-- The counter effect of one `dsme_log_queue` call: `read_count` is never
touched and `write_count` grows by 0, 1 (normal store) or 2 (overflow
recovery, which additionally requires occupancy below 112). -/
theorem dsme_log_queue_counters (s : RingState) (prio : Int) (text : String)
    (f1 f2 : Bool) :
    (dsme_log_queue s prio text f1 f2).1.read = s.read
    ∧ ((dsme_log_queue s prio text f1 f2).1.write = s.write
       ∨ ((dsme_log_queue s prio text f1 f2).1.write = s.write + 1
           ∧ buffered_count s < DSME_LOG_ENTRY_COUNT)
       ∨ ((dsme_log_queue s prio text f1 f2).1.write = s.write + 2
           ∧ buffered_count s < DSME_LOG_ENTRY_COUNT * 7 / 8)) := by
  unfold dsme_log_queue
  split
  · simp
  · rename_i hful
    split
    · simp
    · rename_i hrec
      by_cases hov : s.overflow = true
      · simp only [hov, if_true, reduceIte]
        refine ⟨by simp, Or.inr (Or.inr ⟨by simp, ?_⟩)⟩
        simp only [hov, true_and] at hrec
        omega
      · simp only [Bool.not_eq_true] at hov
        simp only [hov, Bool.false_eq_true, if_false, reduceIte]
        refine ⟨by simp, Or.inr (Or.inl ⟨by simp, ?_⟩)⟩
        omega

/-- One step of any logger operation preserves the counter invariant. -/
theorem ring_inv_preserved (s : RingState) (op : RingOp)
    (h : s.read ≤ s.write ∧ s.write - s.read ≤ DSME_LOG_ENTRY_COUNT) :
    (ringApply s op).read ≤ (ringApply s op).write
    ∧ (ringApply s op).write - (ringApply s op).read
        ≤ DSME_LOG_ENTRY_COUNT := by
  obtain ⟨h1, h2⟩ := h
  have hcap : DSME_LOG_ENTRY_COUNT = 128 := rfl
  have hmod : s.write - s.read < GUINT_MOD := by
    have : GUINT_MOD = 4294967296 := by norm_num [GUINT_MOD]
    omega
  have hb := buffered_count_eq s h1 hmod
  cases op with
  | queue prio text f1 f2 =>
    obtain ⟨hr, hw⟩ := dsme_log_queue_counters s prio text f1 f2
    simp only [ringApply]
    rcases hw with hw | ⟨hw, hlt⟩ | ⟨hw, hlt⟩ <;> constructor <;> omega
  | pop =>
    simp only [ringApply]
    unfold dsme_log_thread_step
    split
    · rename_i hz
      exact ⟨h1, h2⟩
    · rename_i hz
      constructor
      · show s.read + 1 ≤ s.write
        omega
      · show s.write - (s.read + 1) ≤ DSME_LOG_ENTRY_COUNT
        omega
  | threadExit =>
    simp only [ringApply]
    exact ⟨h1, h2⟩

/-- C8: in every logger state reachable by any interleaving of producer
steps (`dsme_log_queue`) and consumer steps (`dsme_log_thread`), the ring
counters satisfy `write_count >= read_count` and
`write_count - read_count <= capacity` (128). -/
theorem ring_buffer_counters_invariant (s : RingState)
    (h : RingReachable s) :
    s.read ≤ s.write ∧ s.write - s.read ≤ DSME_LOG_ENTRY_COUNT := by
  induction h with
  | init => exact ⟨Nat.le_refl 0, by simp [ringInit]⟩
  | step s' op _ ih => exact ring_inv_preserved s' op ih

/-- C8 witness: the invariant at a concrete reachable state (two messages
queued, one drained). -/
theorem ring_buffer_counters_invariant_witness :
    (ringRun [RingOp.queue 6 "a" false false, RingOp.queue 5 "b" false false,
              RingOp.pop]).read
      ≤ (ringRun [RingOp.queue 6 "a" false false, RingOp.queue 5 "b" false false,
                  RingOp.pop]).write
    ∧ (ringRun [RingOp.queue 6 "a" false false, RingOp.queue 5 "b" false false,
                RingOp.pop]).write
      - (ringRun [RingOp.queue 6 "a" false false, RingOp.queue 5 "b" false false,
                  RingOp.pop]).read
      ≤ DSME_LOG_ENTRY_COUNT :=
  ring_buffer_counters_invariant _
    (ringRun_reachable [RingOp.queue 6 "a" false false,
                        RingOp.queue 5 "b" false false, RingOp.pop])

/-- C6: a `dsme_log_queue` call made while occupancy equals the capacity
(128) stores nothing — no ring-buffer slot is written and nothing is
handed to the sink or the worker — and only sets the overflow flag and
increments the dropped-message counter (and, being a total function of the
state, it returns without blocking). -/
theorem queue_at_capacity_drops (s : RingState) (prio : Int) (text : String)
    (f1 f2 : Bool) (h : buffered_count s = DSME_LOG_ENTRY_COUNT) :
    dsme_log_queue s prio text f1 f2
      = ({ s with overflow := true, skipped := s.skipped + 1 }, []) := by
  unfold dsme_log_queue
  rw [h]
  simp

/-- A concrete logger state whose occupancy is exactly the capacity. -/
def ringFull : RingState :=
  { write := 128, read := 0, overflow := false, skipped := 0
    thread_enabled := true, event_fd_open := true }

/-- C6 witness: the capacity-boundary behaviour at a concrete full
state. -/
theorem queue_at_capacity_drops_witness :
    buffered_count ringFull = DSME_LOG_ENTRY_COUNT
    ∧ dsme_log_queue ringFull 6 "x" false false
        = ({ ringFull with overflow := true
                           skipped := ringFull.skipped + 1 }, []) :=
  ⟨by decide, queue_at_capacity_drops ringFull 6 "x" false false (by decide)⟩

/-- The ring-buffer store events among a list of logger events, in
order. -/
def storedEntries (evs : List LogEvent) : List (Nat × LogEntry) :=
  evs.filterMap (fun ev =>
    match ev with
    | LogEvent.stored slot e => some (slot, e)
    | _ => none)

/-- `dsme_log_notify_worker` stores nothing into the ring buffer. -/
@[simp] theorem notify_worker_stored (s : RingState) (f : Bool)
    (e : LogEntry) :
    storedEntries (dsme_log_notify_worker s f e).2 = [] := by
  unfold dsme_log_notify_worker
  split
  · split
    · rfl
    · split <;> rfl
  · rfl

@[simp] theorem storedEntries_cons_stored (slot : Nat) (e : LogEntry)
    (rest : List LogEvent) :
    storedEntries (LogEvent.stored slot e :: rest)
      = (slot, e) :: storedEntries rest := rfl

@[simp] theorem storedEntries_append (a b : List LogEvent) :
    storedEntries (a ++ b) = storedEntries a ++ storedEntries b := by
  unfold storedEntries
  exact List.filterMap_append a b _

/-- C4 (amended): after an overflow, while occupancy is still at least
`128 * 7 / 8 = 112` every `dsme_log_queue` call only increments the drop
counter (storing nothing); only once occupancy has fallen strictly below
112 — i.e. to at most 111 — does the next call first store the synthetic
entry "logging ringbuffer overflow; N messages lost" (N being the current
drop count) at slot `write_count % 128`, then store the actual message in
the following slot, advancing `write_count` by two and resetting the
overflow bookkeeping. -/
theorem overflow_recovery_strictly_below_112 (s : RingState) (prio : Int)
    (text : String) (f1 f2 : Bool) (hov : s.overflow = true) :
    (DSME_LOG_ENTRY_COUNT * 7 / 8 ≤ buffered_count s →
      dsme_log_queue s prio text f1 f2
        = ({ s with overflow := true, skipped := s.skipped + 1 }, []))
    ∧ (buffered_count s < DSME_LOG_ENTRY_COUNT * 7 / 8 →
      storedEntries (dsme_log_queue s prio text f1 f2).2
        = [(s.write % DSME_LOG_ENTRY_COUNT, overflow_entry s.skipped),
           ((s.write + 1) % DSME_LOG_ENTRY_COUNT, log_entry_make prio text)]
      ∧ (dsme_log_queue s prio text f1 f2).2.head?
          = some (LogEvent.stored (s.write % DSME_LOG_ENTRY_COUNT)
                    (overflow_entry s.skipped))
      ∧ (dsme_log_queue s prio text f1 f2).1.write = s.write + 2
      ∧ (dsme_log_queue s prio text f1 f2).1.read = s.read
      ∧ (dsme_log_queue s prio text f1 f2).1.overflow = false
      ∧ (dsme_log_queue s prio text f1 f2).1.skipped = 0) := by
  constructor
  · intro hge
    unfold dsme_log_queue
    split
    · rename_i hful
      have : s.overflow = true := hov
      cases s
      simp_all
    · rename_i hful
      rw [if_pos]
      · cases s
        simp_all
      · exact ⟨hov, hge⟩
  · intro hlt
    have hful : ¬ buffered_count s ≥ DSME_LOG_ENTRY_COUNT := by
      have : DSME_LOG_ENTRY_COUNT = 128 := rfl
      omega
    have hrec : ¬ (s.overflow = true
        ∧ buffered_count s ≥ DSME_LOG_ENTRY_COUNT * 7 / 8) := by
      rintro ⟨-, hge⟩
      omega
    unfold dsme_log_queue
    rw [if_neg hful, if_neg hrec]
    simp only [hov, if_true, reduceIte]
    refine ⟨?_, ?_, ?_, ?_, ?_, ?_⟩ <;> simp

/-- A concrete overflowed logger state whose occupancy (69) is already
strictly below 112. -/
def ringRecovering : RingState :=
  { write := 129, read := 60, overflow := true, skipped := 9
    thread_enabled := true, event_fd_open := true }

/-- C4 witness: the amended recovery behaviour at `ringRecovering`. -/
theorem overflow_recovery_strictly_below_112_witness :
    ringRecovering.overflow = true
    ∧ buffered_count ringRecovering < DSME_LOG_ENTRY_COUNT * 7 / 8
    ∧ storedEntries (dsme_log_queue ringRecovering 6 "hello" false false).2
        = [(ringRecovering.write % DSME_LOG_ENTRY_COUNT,
            overflow_entry ringRecovering.skipped),
           ((ringRecovering.write + 1) % DSME_LOG_ENTRY_COUNT,
            log_entry_make 6 "hello")] :=
  ⟨rfl, by decide,
   ((overflow_recovery_strictly_below_112 ringRecovering 6 "hello"
       false false rfl).2 (by decide)).1⟩

/-- 129 uninterrupted `dsme_log_queue` calls (filling the 128 slots and
tripping the overflow flag on the 129th) followed by 16 logger-thread
pops, leaving occupancy at exactly 112. -/
def c4ops : List RingOp :=
  List.replicate 129 (RingOp.queue 6 "m" false false)
    ++ List.replicate 16 RingOp.pop

def c4state : RingState := ringRun c4ops

set_option maxRecDepth 65536 in
/-- C4 counterexample: at a reachable overflowed state whose occupancy has
fallen to exactly 112 (= 128 * 7 / 8), the next `dsme_log_queue` call does
not store the synthetic overflow notice (it stores nothing at all and only
increments the drop counter) — the guard `buffered >= 112` at
logging.c:584 keeps skipping until occupancy is strictly below 112, so
"at most 112" in the claim is off by one. -/
theorem overflow_notice_not_injected_at_112 :
    RingReachable c4state
    ∧ c4state.overflow = true
    ∧ buffered_count c4state = DSME_LOG_ENTRY_COUNT * 7 / 8
    ∧ dsme_log_queue c4state 6 "x" false false
        = ({ c4state with skipped := c4state.skipped + 1 }, []) :=
  ⟨ringRun_reachable c4ops, by decide, by decide, by decide⟩

/-- An eventfd write failure on the very first queued message (disabling
the worker thread for good), followed by 127 further messages: with the
worker gone nothing ever drains, so the ring is now at capacity. -/
def c5ops : List RingOp :=
  RingOp.queue 6 "m" false true
    :: List.replicate 127 (RingOp.queue 6 "m" false false)

def c5state : RingState := ringRun c5ops

set_option maxRecDepth 65536 in
/-- C5 evidence: right after the worker thread is disabled a queue call
still stores its entry and writes it synchronously to the sink, but once
the (never again drained) ring buffer has filled up, `dsme_log_queue`
returns without any sink write at all — every further message is silently
dropped, contradicting both the claim and the comment at logging.c:526
("this and all future logging will be handled from main thread"). -/
theorem queue_after_thread_disabled_can_drop_silently :
    RingReachable c5state
    ∧ c5state.thread_enabled = false
    ∧ (dsme_log_queue (ringRun [RingOp.queue 6 "m" false true]) 5 "y"
         false false).2
        = [LogEvent.stored 1 (log_entry_make 5 "y"),
           LogEvent.syncWrite (log_entry_make 5 "y")]
    ∧ (dsme_log_queue c5state 6 "x" false false).2 = [] :=
  ⟨ringRun_reachable c5ops, by decide, by decide, by decide⟩

/- ================================================================== -/
/- src/dsme/logging.c — include/exclude rules, cache, dsme_log_p_      -/
/- ================================================================== -/

/-- `log_state_t` (logging.c:84-90). -/
inductive LogMatchState
  | unknown
  | included
  | excluded
  | defaulted
  deriving DecidableEq

/-- `log_rule_t` (logging.c:96-100). -/
structure LogRule where
  pattern    : String
  rule_state : LogMatchState
  deriving DecidableEq

/-- The rule bookkeeping globals (logging.c:689-690): `dsme_log_rule_list`
with the newest rule first (rules are prepended, logging.c:732), and
`dsme_log_rule_cache`, a hash table from "file:func" keys to evaluated
states — `none` while no table has been created.  The table stores
`log_state_t` values as pointers, so a stored `LOG_STATE_UNKNOWN` (= 0 =
NULL) is indistinguishable from an absent key (logging.c:776-779); the
model reproduces this by having lookups answer `unknown` for missing
keys. -/
structure LogFilter where
  rules : List LogRule
  cache : Option (List (String × LogMatchState))
  deriving DecidableEq

/-- Rule state before any rule has been added. -/
def filterInit : LogFilter :=
  { rules := [], cache := none }

/-- `g_hash_table_lookup` on the rule cache: the stored value of the first
binding for the key, or NULL (= `unknown`) when absent.  New bindings are
prepended, so the first binding is the current one. -/
def cache_lookup : List (String × LogMatchState) → String → LogMatchState
  | [], _ => LogMatchState.unknown
  | (k, v) :: rest, key => if k = key then v else cache_lookup rest key

/-- `dsme_log_add_rule` (logging.c:715-734): empty (or freshly create) the
cache and prepend the new rule, so that the most recently added matching
rule wins during evaluation. -/
def dsme_log_add_rule (f : LogFilter) (pattern : String)
    (st : LogMatchState) : LogFilter :=
  { rules := { pattern := pattern, rule_state := st } :: f.rules
    cache := some [] }

/-- `dsme_log_include` (logging.c:740-745). -/
def dsme_log_include (f : LogFilter) (pattern : String) : LogFilter :=
  dsme_log_add_rule f pattern LogMatchState.included

/-- `dsme_log_exclude` (logging.c:751-756). -/
def dsme_log_exclude (f : LogFilter) (pattern : String) : LogFilter :=
  dsme_log_add_rule f pattern LogMatchState.excluded

/-- `dsme_log_clear_rules` (logging.c:694-708): drop the rule list and the
cache together. -/
def dsme_log_clear_rules (_ : LogFilter) : LogFilter :=
  { rules := [], cache := none }

/-- The scan over `dsme_log_rule_list` inside `dsme_log_evaluate`
(logging.c:781-789): the state of the first rule (= the most recently
added one) whose glob pattern matches the key, `unknown` when none does.
The glob matcher `fnmatch(3)` is a libc routine, passed in here as the
parameter `fm` (pattern, key). -/
def rule_list_match (fm : String → String → Bool) (rules : List LogRule)
    (key : String) : LogMatchState :=
  match rules.find? (fun r => fm r.pattern key) with
  | some r => r.rule_state
  | none => LogMatchState.unknown

/-- `dsme_log_evaluate` (logging.c:765-794): with no cache table the
answer is `LOG_STATE_DEFAULT`; otherwise answer from the cache when the
stored value is non-NULL, else scan the rule list and memoise the
result (possibly memoising NULL = `unknown`, which later lookups treat as
a miss, exactly as the pointer-valued hash table does). -/
def dsme_log_evaluate (fm : String → String → Bool) (f : LogFilter)
    (file func : String) : LogMatchState × LogFilter :=
  match f.cache with
  | none => (LogMatchState.defaulted, f)
  | some c =>
    let key := file ++ ":" ++ func
    let hit := cache_lookup c key
    if hit ≠ LogMatchState.unknown then
      (hit, f)
    else
      let hit := rule_list_match fm f.rules key
      (hit, { f with cache := some ((key, hit) :: c) })

/-- `dsme_log_p_` (logging.c:826-843): consult the include/exclude rules
first (only when a rule cache exists, i.e. when rules have been added),
then fall back to comparing priority against the configured verbosity. -/
def dsme_log_p_ (fm : String → String → Bool) (f : LogFilter)
    (verbosity prio : Int) (file func : String) : Bool × LogFilter :=
  match f.cache with
  | some _ =>
    let r := dsme_log_evaluate fm f file func
    match r.1 with
    | LogMatchState.included => (true, r.2)
    | LogMatchState.excluded => (false, r.2)
    | _ => (decide (prio ≤ verbosity), r.2)
  | none => (decide (prio ≤ verbosity), f)

/-- The claim's cache-free reading of the filter: the predicate holds iff
the most-recently-added rule whose glob pattern matches "file:func" is an
INCLUDED rule, or no rule matches and the priority is within the
verbosity.  (The rule list is kept newest-first, so the first match is the
most recently added one.) -/
def log_predicate_spec (fm : String → String → Bool) (rules : List LogRule)
    (verbosity prio : Int) (file func : String) : Bool :=
  match rules.find? (fun r => fm r.pattern (file ++ ":" ++ func)) with
  | some r => if r.rule_state = LogMatchState.included then true else false
  | none => decide (prio ≤ verbosity)

/-- The filter operations a running daemon performs. -/
inductive FilterOp
  | include_rule (pattern : String)
  | exclude_rule (pattern : String)
  | clear
  | query (verbosity prio : Int) (file func : String)

/-- Apply one filter operation. -/
def filterApply (fm : String → String → Bool) (f : LogFilter) :
    FilterOp → LogFilter
  | FilterOp.include_rule p => dsme_log_include f p
  | FilterOp.exclude_rule p => dsme_log_exclude f p
  | FilterOp.clear => dsme_log_clear_rules f
  | FilterOp.query v prio file func => (dsme_log_p_ fm f v prio file func).2

/-- Run a list of filter operations from the pristine state. -/
def filterRun (fm : String → String → Bool) (ops : List FilterOp) : LogFilter :=
  ops.foldl (filterApply fm) filterInit

/-- Filter states reachable through the exported entry points. -/
inductive FilterReachable (fm : String → String → Bool) : LogFilter → Prop
  | init : FilterReachable fm filterInit
  | step (f : LogFilter) (op : FilterOp) :
      FilterReachable fm f → FilterReachable fm (filterApply fm f op)

/-- Every state produced by running filter operations is reachable. -/
theorem filterRun_reachable (fm : String → String → Bool)
    (ops : List FilterOp) : FilterReachable fm (filterRun fm ops) := by
  suffices h : ∀ f, FilterReachable fm f
      → FilterReachable fm (ops.foldl (filterApply fm) f) from
    h filterInit FilterReachable.init
  induction ops with
  | nil => intro f hf; exact hf
  | cons op rest ih =>
    intro f hf
    exact ih (filterApply fm f op) (FilterReachable.step f op hf)

/-- The coherence invariant tying the cache to the rule list: a missing
cache means no rules; every non-NULL cached value equals the current
rule-list evaluation of its key; and every rule carries an
include/exclude state (the only states `dsme_log_add_rule` is called
with). -/
def FilterInv (fm : String → String → Bool) (f : LogFilter) : Prop :=
  (f.cache = none → f.rules = [])
  ∧ (∀ c, f.cache = some c → ∀ key,
      cache_lookup c key = LogMatchState.unknown
      ∨ cache_lookup c key = rule_list_match fm f.rules key)
  ∧ (∀ r, r ∈ f.rules
      → r.rule_state = LogMatchState.included
        ∨ r.rule_state = LogMatchState.excluded)

/-- Each filter operation preserves the coherence invariant. -/
theorem filter_inv_preserved (fm : String → String → Bool) (f : LogFilter)
    (op : FilterOp) (h : FilterInv fm f) :
    FilterInv fm (filterApply fm f op) := by
  obtain ⟨hnone, hcache, hstates⟩ := h
  cases op with
  | include_rule p =>
    refine ⟨by intro hc; simp_all [filterApply, dsme_log_include,
        dsme_log_add_rule], ?_, ?_⟩
    · intro c hc key
      simp only [filterApply, dsme_log_include, dsme_log_add_rule,
        Option.some.injEq] at hc
      subst hc
      exact Or.inl rfl
    · intro r hr
      simp only [filterApply, dsme_log_include, dsme_log_add_rule,
        List.mem_cons] at hr
      rcases hr with hr | hr
      · subst hr; exact Or.inl rfl
      · exact hstates r hr
  | exclude_rule p =>
    refine ⟨by intro hc; simp_all [filterApply, dsme_log_exclude,
        dsme_log_add_rule], ?_, ?_⟩
    · intro c hc key
      simp only [filterApply, dsme_log_exclude, dsme_log_add_rule,
        Option.some.injEq] at hc
      subst hc
      exact Or.inl rfl
    · intro r hr
      simp only [filterApply, dsme_log_exclude, dsme_log_add_rule,
        List.mem_cons] at hr
      rcases hr with hr | hr
      · subst hr; exact Or.inr rfl
      · exact hstates r hr
  | clear =>
    exact ⟨fun _ => rfl, by intro c hc; simp [filterApply,
      dsme_log_clear_rules] at hc, by intro r hr; simp [filterApply,
      dsme_log_clear_rules] at hr⟩
  | query v prio file func =>
    unfold filterApply dsme_log_p_
    cases hc : f.cache with
    | none =>
      exact ⟨hnone, hcache, hstates⟩
    | some c =>
      simp only
      unfold dsme_log_evaluate
      rw [hc]
      simp only
      by_cases hhit : cache_lookup c (file ++ ":" ++ func)
          ≠ LogMatchState.unknown
      · rw [if_pos hhit]
        have hres : FilterInv fm f := ⟨hnone, hcache, hstates⟩
        rcases hres with ⟨h1, h2, h3⟩
        cases hlk : cache_lookup c (file ++ ":" ++ func) <;>
          simp_all [FilterInv]
      · rw [if_neg hhit]
        simp only [ne_eq, not_not] at hhit
        have hinv2 : FilterInv fm
            { f with cache := some ((file ++ ":" ++ func,
                rule_list_match fm f.rules (file ++ ":" ++ func)) :: c) } := by
          refine ⟨by intro hx; simp at hx, ?_, hstates⟩
          intro c2 hc2 key
          simp only [Option.some.injEq] at hc2
          subst hc2
          unfold cache_lookup
          by_cases hkey : file ++ ":" ++ func = key
          · rw [if_pos hkey, ← hkey]
            exact Or.inr rfl
          · rw [if_neg hkey]
            exact hcache c hc key
        cases hlk : rule_list_match fm f.rules (file ++ ":" ++ func) <;>
          simp_all [FilterInv]

/-- Reachable filter states satisfy the coherence invariant. -/
theorem filter_reachable_inv (fm : String → String → Bool) (f : LogFilter)
    (h : FilterReachable fm f) : FilterInv fm f := by
  induction h with
  | init =>
    exact ⟨fun _ => rfl, by intro c hc; simp [filterInit] at hc,
      by intro r hr; simp [filterInit] at hr⟩
  | step f' op _ ih => exact filter_inv_preserved fm f' op ih

/-- Under the coherence invariant, `dsme_log_p_` answers exactly the direct
rule-list evaluation. -/
theorem dsme_log_p_eq_spec (fm : String → String → Bool) (f : LogFilter)
    (verbosity prio : Int) (file func : String) (h : FilterInv fm f) :
    (dsme_log_p_ fm f verbosity prio file func).1
      = log_predicate_spec fm f.rules verbosity prio file func := by
  obtain ⟨hnone, hcache, hstates⟩ := h
  unfold dsme_log_p_ log_predicate_spec
  cases hc : f.cache with
  | none =>
    rw [hnone hc]
    simp
  | some c =>
    simp only
    unfold dsme_log_evaluate
    rw [hc]
    simp only
    by_cases hhit : cache_lookup c (file ++ ":" ++ func)
        ≠ LogMatchState.unknown
    · rw [if_pos hhit]
      rcases hcache c hc (file ++ ":" ++ func) with hlk | hlk
      · exact absurd hlk hhit
      · rw [hlk]
        unfold rule_list_match
        cases hfind : f.rules.find? (fun r => fm r.pattern (file ++ ":" ++ func)) with
        | none =>
          simp [hfind]
        | some r =>
          rcases hstates r (List.mem_of_find?_eq_some hfind) with hs | hs <;>
            simp [hfind, hs]
    · rw [if_neg hhit]
      simp only
      unfold rule_list_match
      cases hfind : f.rules.find? (fun r => fm r.pattern (file ++ ":" ++ func)) with
      | none =>
        simp [hfind]
      | some r =>
        rcases hstates r (List.mem_of_find?_eq_some hfind) with hs | hs <;>
          simp [hfind, hs]

/-- C7: for every reachable filter state, priority, file and function,
`dsme_log_p_` returns true iff the most-recently-added rule whose glob
pattern matches "file:func" is an INCLUDED rule, or no rule matches and
the priority is within the configured verbosity — the result cache never
makes the predicate disagree with the direct evaluation of the rule
list. -/
theorem log_predicate_agrees_with_rules (fm : String → String → Bool)
    (f : LogFilter) (verbosity prio : Int) (file func : String)
    (h : FilterReachable fm f) :
    (dsme_log_p_ fm f verbosity prio file func).1
      = log_predicate_spec fm f.rules verbosity prio file func :=
  dsme_log_p_eq_spec fm f verbosity prio file func
    (filter_reachable_inv fm f h)

/-- Literal string matching, standing in for `fnmatch` on wildcard-free
patterns. -/
def literal_match (pattern key : String) : Bool :=
  pattern == key

/-- A concrete filter history: include "logging.c:dsme_log_queue",
exclude "timers.c:*" (here a literal pattern), then perform a query so
the cache holds a memoised verdict. -/
def filterOpsDemo : List FilterOp :=
  [FilterOp.include_rule "logging.c:dsme_log_queue",
   FilterOp.exclude_rule "timers.c:timer_cb",
   FilterOp.query 5 7 "logging.c" "dsme_log_queue"]

/-- C7 witness: agreement at a concrete reachable filter state with a
populated cache. -/
theorem log_predicate_agrees_with_rules_witness :
    (dsme_log_p_ literal_match (filterRun literal_match filterOpsDemo)
        5 7 "logging.c" "dsme_log_queue").1
      = log_predicate_spec literal_match
          (filterRun literal_match filterOpsDemo).rules
          5 7 "logging.c" "dsme_log_queue" :=
  log_predicate_agrees_with_rules literal_match
    (filterRun literal_match filterOpsDemo) 5 7 "logging.c" "dsme_log_queue"
    (filterRun_reachable literal_match filterOpsDemo)

/- ================================================================== -/
/- src/dsme/dsmesock.c — accept_client                                 -/
/- ================================================================== -/

/-- `struct ucred` as held in `conn->ucred`: pid/uid/gid of the peer. -/
structure PeerCred where
  pid : Int
  uid : Int
  gid : Int
  deriving DecidableEq

/-- The sentinel credentials stored when the `SO_PEERCRED` query fails
(dsmesock.c:191-194). -/
def bogusCred : PeerCred :=
  { pid := 0, uid := -1, gid := -1 }

/-- Outcomes of the fallible calls made along the accept path
(dsmesock.c:154-229): the watch condition, `accept`, `dsmesock_init`,
`setsockopt(SO_PASSCRED)` (whose failure the code explicitly ignores,
dsmesock.c:183-185), `getsockopt(SO_PEERCRED)` (`some` = the
kernel-reported peer credentials, `none` = the query failed) and the
creation of the per-connection input watch. -/
structure AcceptEnv where
  cond_error  : Bool
  accept_ok   : Bool
  init_ok     : Bool
  passcred_ok : Bool
  peercred    : Option PeerCred
  watch_ok    : Bool
  deriving DecidableEq

/-- What one `accept_client` dispatch is observed to do: whether the
listen watch stays installed, and the credentials of the connection added
to the client list (`none` when no connection was added — either nothing
was accepted or the partial connection was torn down). -/
structure AcceptResult where
  keep_going : Bool
  added      : Option PeerCred
  deriving DecidableEq

/-- `accept_client` (dsmesock.c:154-229).  On an error condition the
listen watch is dropped; failures of `accept`/`dsmesock_init`/the input
watch abandon (and for the watch case tear down) the connection; the
`SO_PASSCRED` outcome is ignored; the recorded credentials are the
kernel's `SO_PEERCRED` answer, or the bogus sentinel values when that
query fails. -/
def accept_client (e : AcceptEnv) : AcceptResult :=
  if e.cond_error then
    { keep_going := false, added := none }
  else if ¬e.accept_ok then
    { keep_going := true, added := none }
  else if ¬e.init_ok then
    { keep_going := true, added := none }
  else
    let creds := match e.peercred with
      | some u => u
      | none => bogusCred
    if ¬e.watch_ok then
      { keep_going := true, added := none }
    else
      { keep_going := true, added := some creds }

/-- C9: for every client connection that completes the accept path, the
recorded credentials are the kernel-reported peer pid/uid/gid when the
`SO_PEERCRED` query succeeded, and exactly the sentinel values
pid=0, uid=-1, gid=-1 when it failed. -/
theorem accept_client_credentials (e : AcceptEnv)
    (hc : e.cond_error = false) (ha : e.accept_ok = true)
    (hi : e.init_ok = true) (hw : e.watch_ok = true) :
    (e.peercred = none → (accept_client e).added = some bogusCred)
    ∧ (∀ u, e.peercred = some u → (accept_client e).added = some u) := by
  constructor
  · intro hp
    simp [accept_client, hc, ha, hi, hw, hp]
  · intro u hp
    simp [accept_client, hc, ha, hi, hw, hp]

/-- C9 witness: a successfully accepted connection whose credential query
failed records the sentinel credentials. -/
theorem accept_client_credentials_witness :
    (accept_client
        { cond_error := false, accept_ok := true, init_ok := true
          passcred_ok := false, peercred := none, watch_ok := true }).added
      = some bogusCred :=
  (accept_client_credentials
      { cond_error := false, accept_ok := true, init_ok := true
        passcred_ok := false, peercred := none, watch_ok := true }
      rfl rfl rfl rfl).1 rfl

/- ================================================================== -/
/- src/dsme/dsme-server.c — receive_and_queue_message                  -/
/- ================================================================== -/

/-- Message type identifiers.  The logging-control ids are declared in
src/include/dsme/logging.h:75-78; the close and process-watchdog
ping/pong ids come from libdsme headers (<dsme/messages.h>,
<dsme/processwd.h>), which live outside this repository — for them only
pairwise distinctness matters to the properties proved here. -/
def DSM_MSGTYPE_SET_LOGGING_VERBOSITY_ID : Nat := 0x00001103

def DSM_MSGTYPE_ADD_LOGGING_INCLUDE_ID : Nat := 0x00001104

def DSM_MSGTYPE_ADD_LOGGING_EXCLUDE_ID : Nat := 0x00001105

def DSM_MSGTYPE_USE_LOGGING_DEFAULTS_ID : Nat := 0x00001106

def DSM_MSGTYPE_CLOSE_ID : Nat := 0x00000001

def DSM_MSGTYPE_PROCESSWD_PING_ID : Nat := 0x00000504

def DSM_MSGTYPE_PROCESSWD_PONG_ID : Nat := 0x00000505

/-- A received `dsmemsg_generic_t` as far as `receive_and_queue_message`
inspects it: the 32-bit type field, plus the payload views used by the
handled logging-control messages — the trailing extra blob
(`DSMEMSG_EXTRA`, a pattern string) and the `verbosity` field of
`DSM_MSGTYPE_SET_LOGGING_VERBOSITY`. -/
structure DsmeMsg where
  type_     : Nat
  extra     : String
  verbosity : Int
  deriving DecidableEq

/-- `dsme_log_set_verbosity` (logging.c:800-811): the stored verbosity
becomes the clamped argument. -/
def dsme_log_set_verbosity (v : Int) : Int :=
  log_prio_cap v

/-- What `receive_and_queue_message` is observed to do with one readable
frame. -/
structure ReceiveResult where
  keep_connection : Bool
  broadcast       : Option DsmeMsg
  deriving DecidableEq

/-- `receive_and_queue_message` (dsme-server.c:218-259) as a function of
the frame delivered by `dsmesock_receive` (none = no complete frame) and
of the logging-filter/verbosity state it may update.  A PROCESSWD PING
frame has its type field rewritten to PROCESSWD PONG before the message is
broadcast internally; every other frame is broadcast as-is.  After the
broadcast the logging-control messages are acted upon.  (The
`DSMEMSG_CAST` size checks always pass for well-formed frames of these
fixed-layout types and are not modelled separately.) -/
def receive_and_queue_message (received : Option DsmeMsg) (f : LogFilter)
    (verbosity : Int) : ReceiveResult × LogFilter × Int :=
  match received with
  | none => ({ keep_connection := true, broadcast := none }, f, verbosity)
  | some m0 =>
    let m := if m0.type_ = DSM_MSGTYPE_PROCESSWD_PING_ID
             then { m0 with type_ := DSM_MSGTYPE_PROCESSWD_PONG_ID }
             else m0
    if m.type_ = DSM_MSGTYPE_CLOSE_ID then
      ({ keep_connection := false, broadcast := some m }, f, verbosity)
    else if m.type_ = DSM_MSGTYPE_ADD_LOGGING_INCLUDE_ID then
      ({ keep_connection := true, broadcast := some m },
        dsme_log_include f m.extra, verbosity)
    else if m.type_ = DSM_MSGTYPE_ADD_LOGGING_EXCLUDE_ID then
      ({ keep_connection := true, broadcast := some m },
        dsme_log_exclude f m.extra, verbosity)
    else if m.type_ = DSM_MSGTYPE_USE_LOGGING_DEFAULTS_ID then
      ({ keep_connection := true, broadcast := some m },
        dsme_log_clear_rules f, verbosity)
    else if m.type_ = DSM_MSGTYPE_SET_LOGGING_VERBOSITY_ID then
      ({ keep_connection := true, broadcast := some m }, f,
        dsme_log_set_verbosity m.verbosity)
    else
      ({ keep_connection := true, broadcast := some m }, f, verbosity)

/-- C10: a received frame carrying the process-watchdog PING type is
broadcast with its type field rewritten to the process-watchdog PONG type
(other fields untouched); a frame of any other type is broadcast
unchanged. -/
theorem receive_rewrites_ping_to_pong (m : DsmeMsg) (f : LogFilter)
    (verbosity : Int) :
    (receive_and_queue_message (some m) f verbosity).1.broadcast
      = some (if m.type_ = DSM_MSGTYPE_PROCESSWD_PING_ID
              then { m with type_ := DSM_MSGTYPE_PROCESSWD_PONG_ID }
              else m) := by
  simp only [receive_and_queue_message]
  by_cases hping : m.type_ = DSM_MSGTYPE_PROCESSWD_PING_ID
  · simp +decide [hping, DSM_MSGTYPE_PROCESSWD_PONG_ID, DSM_MSGTYPE_CLOSE_ID,
      DSM_MSGTYPE_ADD_LOGGING_INCLUDE_ID, DSM_MSGTYPE_ADD_LOGGING_EXCLUDE_ID,
      DSM_MSGTYPE_USE_LOGGING_DEFAULTS_ID,
      DSM_MSGTYPE_SET_LOGGING_VERBOSITY_ID]
  · simp only [hping, if_false, reduceIte]
    repeat' split
    all_goals rfl
